import Mathlib

/-!
Verification of `monasca_agent/collector/virt/vmware/inspector.py`
(VMware vSphere inspector of the monasca agent).

The inspector orchestrates an external collaborator
(`vsphere_operations.VsphereOperations`, not part of the inspected
sources) to answer four inspection requests: CPU utilization, memory
usage, network-interface rates and disk rates.  We embed the inspector
shallowly: numeric stat values are rationals (the spec's query engine
returns plain numbers and the documented conversions are fractional),
the collaborator is an explicit record of functions, each inspection
returns its result together with the trace of collaborator calls it
issued, and the two generator-based fan-outs return the list of pairs
yielded before termination together with an optional terminating error.
-/

namespace VmwareVirt

/-- Counter name constant from inspector.py. -/
def VC_AVERAGE_MEMORY_CONSUMED_CNTR : String := "mem:consumed:average"

/-- Counter name constant from inspector.py. -/
def VC_AVERAGE_CPU_CONSUMED_CNTR : String := "cpu:usage:average"

/-- Counter name constant from inspector.py. -/
def VC_NETWORK_RX_COUNTER : String := "net:received:average"

/-- Counter name constant from inspector.py. -/
def VC_NETWORK_TX_COUNTER : String := "net:transmitted:average"

/-- Counter name constant from inspector.py. -/
def VC_DISK_READ_RATE_CNTR : String := "disk:read:average"

/-- Counter name constant from inspector.py. -/
def VC_DISK_READ_REQUESTS_RATE_CNTR : String := "disk:numberReadAveraged:average"

/-- Counter name constant from inspector.py. -/
def VC_DISK_WRITE_RATE_CNTR : String := "disk:write:average"

/-- Counter name constant from inspector.py. -/
def VC_DISK_WRITE_REQUESTS_RATE_CNTR : String := "disk:numberWriteAveraged:average"

/-- `oslo_utils.units.Ki` = 1024, used by the inspector for KB conversions. -/
def Ki : ℚ := 1024

/-- The optional time window passed through to the query engine.  The
inspector never looks inside it, it only forwards it. -/
abbrev Duration := Option ℚ

/-- An instance known to the agent; the inspector only reads its `id`. -/
structure Instance where
  id : String
deriving DecidableEq, Repr

/-- Output record of `inspect_cpu_util` (`virt_inspector.CPUUtilStats`). -/
structure CPUUtilStats where
  util : ℚ
deriving DecidableEq, Repr

/-- Output record of `inspect_memory_usage` (`virt_inspector.MemoryUsageStats`). -/
structure MemoryUsageStats where
  usage : ℚ
deriving DecidableEq, Repr

/-- Output record of `inspect_vnic_rates` (`virt_inspector.InterfaceRateStats`). -/
structure InterfaceRateStats where
  rx_bytes_rate : ℚ
  tx_bytes_rate : ℚ
deriving DecidableEq, Repr

/-- Interface descriptor (`virt_inspector.Interface`): the inspector fills
`name` with the device id and sets `mac`, `fref` and `parameters` to the
null value. -/
structure Interface where
  name : String
  mac : Option String
  fref : Option String
  parameters : Option String
deriving DecidableEq, Repr

/-- Disk descriptor (`virt_inspector.Disk`). -/
structure Disk where
  device : String
deriving DecidableEq, Repr

/-- Output record of `inspect_disk_rates` (`virt_inspector.DiskRateStats`). -/
structure DiskRateStats where
  read_bytes_rate : ℚ
  read_requests_rate : ℚ
  write_bytes_rate : ℚ
  write_requests_rate : ℚ
deriving DecidableEq, Repr

/-- Opaque payload of a failure raised by the external collaborator
(unknown counter name, transport fault, ...), propagated unchanged. -/
abbrev ProviderError := String

/-- Errors surfaced by an inspection: `instanceNotFound` embeds
`virt_inspector.InstanceNotFoundException` with its message, `provider`
is a collaborator failure propagated unchanged. -/
inductive InspectorError where
  | instanceNotFound (msg : String)
  | provider (e : ProviderError)
deriving DecidableEq, Repr

/-- The message format string of the not-found exception:
`'VM %s not found in VMware Vsphere' % instance.id`. -/
def not_found_msg (instanceId : String) : String :=
  "VM " ++ instanceId ++ " not found in VMware Vsphere"

/-- One call issued against the `VsphereOperations` collaborator; each
inspection returns the list of calls it issued, in order. -/
inductive OpCall where
  | getVmMoid (instanceId : String)
  | getPerfCounterId (counterName : String)
  | queryAggregate (moid : String) (counterId : ℕ) (duration : Duration)
  | queryDevice (moid : String) (counterId : ℕ) (duration : Duration)
deriving DecidableEq, Repr

/-- A per-device stat map (python dict device-id → value), embedded as an
association list; lookups take the first binding of a key. -/
abbrev DeviceStatMap := List (String × ℚ)

/-- `m.get(k, d)` on a python dict embedded as an association list. -/
def dictGet (m : DeviceStatMap) (k : String) (d : ℚ) : ℚ :=
  match m.find? (fun p => p.1 == k) with
  | some p => p.2
  | none => d

/-- The key list of a per-device stat map (`iterkeys()`). -/
def dictKeys (m : DeviceStatMap) : List String :=
  m.map (fun p => p.1)

/-- `s.update(ks)` on a python set embedded as a duplicate-free list kept
in insertion order: keys not yet present are appended. -/
def setUpdate (s : List String) (ks : List String) : List String :=
  ks.foldl (fun acc k => if k ∈ acc then acc else acc ++ [k]) s

/-- Modelled from the spec: the `VsphereOperations` collaborator
(`vsphere_operations.py` is not among the inspected sources).  Entity
resolution returns the moid or the not-found sentinel
(`EntityResolver.resolve(instanceId) -> moid | null`); counter
resolution returns the counter id or raises
(`CounterCatalog.idFor(counterName) -> counterId, raises if unknown`);
the query engine returns a number (`QueryEngine.aggregate`) or a
device-id → number map (`QueryEngine.perDevice`) or raises. -/
structure VsphereOperations where
  get_vm_moid : String → Option String
  get_perf_counter_id : String → Except ProviderError ℕ
  query_vm_aggregate_stats : String → ℕ → Duration → Except ProviderError ℚ
  query_vm_device_stats : String → ℕ → Duration → Except ProviderError DeviceStatMap

/-- `VsphereInspector.inspect_cpu_util`: resolve the moid (raising
`InstanceNotFoundException` when it `is None`), resolve the CPU counter
id, query the aggregate stat, divide by 100 and wrap in `CPUUtilStats`.
Returns the result together with the trace of collaborator calls. -/
def inspect_cpu_util (ops : VsphereOperations) (inst : Instance) (duration : Duration) :
    Except InspectorError CPUUtilStats × List OpCall :=
  let t0 := [OpCall.getVmMoid inst.id]
  match ops.get_vm_moid inst.id with
  | none => (.error (.instanceNotFound (not_found_msg inst.id)), t0)
  | some vm_moid =>
    let t1 := t0 ++ [OpCall.getPerfCounterId VC_AVERAGE_CPU_CONSUMED_CNTR]
    match ops.get_perf_counter_id VC_AVERAGE_CPU_CONSUMED_CNTR with
    | .error e => (.error (.provider e), t1)
    | .ok cpu_util_counter_id =>
      let t2 := t1 ++ [OpCall.queryAggregate vm_moid cpu_util_counter_id duration]
      match ops.query_vm_aggregate_stats vm_moid cpu_util_counter_id duration with
      | .error e => (.error (.provider e), t2)
      | .ok cpu_util => (.ok ⟨cpu_util / 100⟩, t2)

/-- `VsphereInspector.inspect_memory_usage`: resolve the moid (raising
`InstanceNotFoundException` when it `is None`), resolve the memory
counter id, query the aggregate stat, divide by `units.Ki` and wrap in
`MemoryUsageStats`.  Returns the result with the call trace. -/
def inspect_memory_usage (ops : VsphereOperations) (inst : Instance) (duration : Duration) :
    Except InspectorError MemoryUsageStats × List OpCall :=
  let t0 := [OpCall.getVmMoid inst.id]
  match ops.get_vm_moid inst.id with
  | none => (.error (.instanceNotFound (not_found_msg inst.id)), t0)
  | some vm_moid =>
    let t1 := t0 ++ [OpCall.getPerfCounterId VC_AVERAGE_MEMORY_CONSUMED_CNTR]
    match ops.get_perf_counter_id VC_AVERAGE_MEMORY_CONSUMED_CNTR with
    | .error e => (.error (.provider e), t1)
    | .ok mem_counter_id =>
      let t2 := t1 ++ [OpCall.queryAggregate vm_moid mem_counter_id duration]
      match ops.query_vm_aggregate_stats vm_moid mem_counter_id duration with
      | .error e => (.error (.provider e), t2)
      | .ok memory => (.ok ⟨memory / Ki⟩, t2)

/-- The outcome of a generator-based fan-out inspection: the pairs the
generator yielded before it terminated, the error it terminated with
(if any), and the trace of collaborator calls it issued. -/
structure FanOutResult (D S : Type) where
  yielded : List (D × S)
  err : Option InspectorError
  trace : List OpCall
deriving DecidableEq, Repr

/-- `VsphereInspector.inspect_vnic_rates`: resolve the moid (raising
`InstanceNotFoundException` when `not vm_moid`, i.e. the sentinel or an
empty string); then, for the rx and the tx counters in that order,
resolve the counter id and query the per-device map; then yield, for
each device id in the union of the two key sets, an
`(Interface, InterfaceRateStats)` pair, reading each map with default 0
and converting KB/s to B/s by multiplying with `units.Ki`.  The source's
two-element counter loop is unrolled. -/
def inspect_vnic_rates (ops : VsphereOperations) (inst : Instance) (duration : Duration) :
    FanOutResult Interface InterfaceRateStats :=
  let t0 := [OpCall.getVmMoid inst.id]
  match ops.get_vm_moid inst.id with
  | none => ⟨[], some (.instanceNotFound (not_found_msg inst.id)), t0⟩
  | some vm_moid =>
    if vm_moid.isEmpty then
      ⟨[], some (.instanceNotFound (not_found_msg inst.id)), t0⟩
    else
      let t1 := t0 ++ [OpCall.getPerfCounterId VC_NETWORK_RX_COUNTER]
      match ops.get_perf_counter_id VC_NETWORK_RX_COUNTER with
      | .error e => ⟨[], some (.provider e), t1⟩
      | .ok rx_counter_id =>
        let t2 := t1 ++ [OpCall.queryDevice vm_moid rx_counter_id duration]
        match ops.query_vm_device_stats vm_moid rx_counter_id duration with
        | .error e => ⟨[], some (.provider e), t2⟩
        | .ok rx_map =>
          let t3 := t2 ++ [OpCall.getPerfCounterId VC_NETWORK_TX_COUNTER]
          match ops.get_perf_counter_id VC_NETWORK_TX_COUNTER with
          | .error e => ⟨[], some (.provider e), t3⟩
          | .ok tx_counter_id =>
            let t4 := t3 ++ [OpCall.queryDevice vm_moid tx_counter_id duration]
            match ops.query_vm_device_stats vm_moid tx_counter_id duration with
            | .error e => ⟨[], some (.provider e), t4⟩
            | .ok tx_map =>
              let vnic_ids := setUpdate (setUpdate [] (dictKeys rx_map)) (dictKeys tx_map)
              let pairs := vnic_ids.map (fun vnic_id =>
                (Interface.mk vnic_id none none none,
                 InterfaceRateStats.mk (dictGet rx_map vnic_id 0 * Ki)
                                       (dictGet tx_map vnic_id 0 * Ki)))
              ⟨pairs, none, t4⟩

/-- `VsphereInspector.inspect_disk_rates`: resolve the moid (raising
`InstanceNotFoundException` when `not vm_moid`); then, for the four disk
counters read-bytes, read-requests, write-bytes, write-requests in that
order, resolve the counter id and query the per-device map; then yield,
for each device id in the union of the four key sets, a
`(Disk, DiskRateStats)` pair, reading each map with default 0 and
converting the two byte-rate counters from KB/s to B/s with `units.Ki`
while the two request-rate counters stay unconverted.  The source's
four-element counter loop is unrolled. -/
def inspect_disk_rates (ops : VsphereOperations) (inst : Instance) (duration : Duration) :
    FanOutResult Disk DiskRateStats :=
  let t0 := [OpCall.getVmMoid inst.id]
  match ops.get_vm_moid inst.id with
  | none => ⟨[], some (.instanceNotFound (not_found_msg inst.id)), t0⟩
  | some vm_moid =>
    if vm_moid.isEmpty then
      ⟨[], some (.instanceNotFound (not_found_msg inst.id)), t0⟩
    else
      let t1 := t0 ++ [OpCall.getPerfCounterId VC_DISK_READ_RATE_CNTR]
      match ops.get_perf_counter_id VC_DISK_READ_RATE_CNTR with
      | .error e => ⟨[], some (.provider e), t1⟩
      | .ok read_id =>
        let t2 := t1 ++ [OpCall.queryDevice vm_moid read_id duration]
        match ops.query_vm_device_stats vm_moid read_id duration with
        | .error e => ⟨[], some (.provider e), t2⟩
        | .ok read_map =>
          let t3 := t2 ++ [OpCall.getPerfCounterId VC_DISK_READ_REQUESTS_RATE_CNTR]
          match ops.get_perf_counter_id VC_DISK_READ_REQUESTS_RATE_CNTR with
          | .error e => ⟨[], some (.provider e), t3⟩
          | .ok read_req_id =>
            let t4 := t3 ++ [OpCall.queryDevice vm_moid read_req_id duration]
            match ops.query_vm_device_stats vm_moid read_req_id duration with
            | .error e => ⟨[], some (.provider e), t4⟩
            | .ok read_req_map =>
              let t5 := t4 ++ [OpCall.getPerfCounterId VC_DISK_WRITE_RATE_CNTR]
              match ops.get_perf_counter_id VC_DISK_WRITE_RATE_CNTR with
              | .error e => ⟨[], some (.provider e), t5⟩
              | .ok write_id =>
                let t6 := t5 ++ [OpCall.queryDevice vm_moid write_id duration]
                match ops.query_vm_device_stats vm_moid write_id duration with
                | .error e => ⟨[], some (.provider e), t6⟩
                | .ok write_map =>
                  let t7 := t6 ++ [OpCall.getPerfCounterId VC_DISK_WRITE_REQUESTS_RATE_CNTR]
                  match ops.get_perf_counter_id VC_DISK_WRITE_REQUESTS_RATE_CNTR with
                  | .error e => ⟨[], some (.provider e), t7⟩
                  | .ok write_req_id =>
                    let t8 := t7 ++ [OpCall.queryDevice vm_moid write_req_id duration]
                    match ops.query_vm_device_stats vm_moid write_req_id duration with
                    | .error e => ⟨[], some (.provider e), t8⟩
                    | .ok write_req_map =>
                      let disk_ids :=
                        setUpdate (setUpdate (setUpdate (setUpdate []
                          (dictKeys read_map)) (dictKeys read_req_map))
                          (dictKeys write_map)) (dictKeys write_req_map)
                      let pairs := disk_ids.map (fun disk_id =>
                        (Disk.mk disk_id,
                         DiskRateStats.mk
                           (dictGet read_map disk_id 0 * Ki)
                           (dictGet read_req_map disk_id 0)
                           (dictGet write_map disk_id 0 * Ki)
                           (dictGet write_req_map disk_id 0)))
                      ⟨pairs, none, t8⟩

/-- Modelled from the spec: a stateful view of the collaborator, used to
state idempotence of `inspect_cpu_util` across two sequential calls
("given a deterministic query engine stub" and "an unchanged provider
state").  Each call consumes and returns the provider state `σ`. -/
structure StatefulOps (σ : Type) where
  get_vm_moid : σ → String → Option String × σ
  get_perf_counter_id : σ → String → Except ProviderError ℕ × σ
  query_vm_aggregate_stats : σ → String → ℕ → Duration → Except ProviderError ℚ × σ

/-- `VsphereInspector.inspect_cpu_util` again, with the provider state
threaded through the three collaborator calls in source order. -/
def inspect_cpu_util_st {σ : Type} (ops : StatefulOps σ) (s : σ)
    (inst : Instance) (duration : Duration) :
    Except InspectorError CPUUtilStats × σ :=
  match ops.get_vm_moid s inst.id with
  | (none, s1) => (.error (.instanceNotFound (not_found_msg inst.id)), s1)
  | (some vm_moid, s1) =>
    match ops.get_perf_counter_id s1 VC_AVERAGE_CPU_CONSUMED_CNTR with
    | (.error e, s2) => (.error (.provider e), s2)
    | (.ok cpu_util_counter_id, s2) =>
      match ops.query_vm_aggregate_stats s2 vm_moid cpu_util_counter_id duration with
      | (.error e, s3) => (.error (.provider e), s3)
      | (.ok cpu_util, s3) => (.ok ⟨cpu_util / 100⟩, s3)

/-- Unfolding equation: updating a set with a key list processes the head
first. -/
theorem setUpdate_cons (s : List String) (k : String) (ks : List String) :
    setUpdate s (k :: ks) = setUpdate (if k ∈ s then s else s ++ [k]) ks := rfl

/-- Membership in an updated set is membership in the set or in the added
key list. -/
theorem mem_setUpdate {a : String} (ks s : List String) :
    a ∈ setUpdate s ks ↔ a ∈ s ∨ a ∈ ks := by
  induction ks generalizing s with
  | nil => simp [setUpdate]
  | cons k ks ih =>
    rw [setUpdate_cons]
    by_cases hk : k ∈ s
    · rw [if_pos hk, ih]
      simp only [List.mem_cons]
      constructor
      · tauto
      · rintro (h | rfl | h) <;> tauto
    · rw [if_neg hk, ih]
      simp only [List.mem_append, List.mem_cons, List.mem_singleton]
      tauto

/-- Updating a duplicate-free set keeps it duplicate-free. -/
theorem nodup_setUpdate (ks : List String) (s : List String) (hs : s.Nodup) :
    (setUpdate s ks).Nodup := by
  induction ks generalizing s with
  | nil => exact hs
  | cons k ks ih =>
    rw [setUpdate_cons]
    by_cases hk : k ∈ s
    · rw [if_pos hk]; exact ih s hs
    · rw [if_neg hk]
      refine ih _ ?_
      simp only [List.nodup_append, List.nodup_cons, List.nodup_nil,
        List.disjoint_singleton]
      exact ⟨hs, by simp, hk⟩

/-- A key absent from a map's key list looks up to the default. -/
theorem dictGet_not_mem {m : DeviceStatMap} {k : String}
    (h : k ∉ dictKeys m) (d : ℚ) : dictGet m k d = d := by
  unfold dictGet
  cases hf : m.find? (fun p => p.1 == k) with
  | none => rfl
  | some p =>
    exfalso
    have h1 : p.1 = k := by simpa using List.find?_some hf
    have h2 : p ∈ m := List.mem_of_find?_eq_some hf
    refine h ?_
    simp only [dictKeys, List.mem_map]
    exact ⟨p, h2, h1⟩

/-- When the moid resolves to a non-empty string and both network queries
succeed, `inspect_vnic_rates` yields one pair per device id in the union
of the two key sets and issues exactly the five collaborator calls in
source order. -/
theorem inspect_vnic_rates_ok (ops : VsphereOperations) (inst : Instance)
    (d : Duration) (m : String) (rxId txId : ℕ) (rxm txm : DeviceStatMap)
    (hm : ops.get_vm_moid inst.id = some m) (hne : m.isEmpty = false)
    (h1 : ops.get_perf_counter_id VC_NETWORK_RX_COUNTER = .ok rxId)
    (h2 : ops.query_vm_device_stats m rxId d = .ok rxm)
    (h3 : ops.get_perf_counter_id VC_NETWORK_TX_COUNTER = .ok txId)
    (h4 : ops.query_vm_device_stats m txId d = .ok txm) :
    inspect_vnic_rates ops inst d =
      ⟨(setUpdate (setUpdate [] (dictKeys rxm)) (dictKeys txm)).map (fun vnic_id =>
          (Interface.mk vnic_id none none none,
           InterfaceRateStats.mk (dictGet rxm vnic_id 0 * Ki)
                                 (dictGet txm vnic_id 0 * Ki))),
       none,
       [OpCall.getVmMoid inst.id,
        OpCall.getPerfCounterId VC_NETWORK_RX_COUNTER,
        OpCall.queryDevice m rxId d,
        OpCall.getPerfCounterId VC_NETWORK_TX_COUNTER,
        OpCall.queryDevice m txId d]⟩ := by
  unfold inspect_vnic_rates
  rw [hm]
  simp [hne, h1, h2, h3, h4]

/-- When the moid resolves to a non-empty string and all four disk queries
succeed, `inspect_disk_rates` yields one pair per device id in the union
of the four key sets and issues exactly the nine collaborator calls in
source order. -/
theorem inspect_disk_rates_ok (ops : VsphereOperations) (inst : Instance)
    (d : Duration) (m : String) (i1 i2 i3 i4 : ℕ) (m1 m2 m3 m4 : DeviceStatMap)
    (hm : ops.get_vm_moid inst.id = some m) (hne : m.isEmpty = false)
    (h1 : ops.get_perf_counter_id VC_DISK_READ_RATE_CNTR = .ok i1)
    (h2 : ops.query_vm_device_stats m i1 d = .ok m1)
    (h3 : ops.get_perf_counter_id VC_DISK_READ_REQUESTS_RATE_CNTR = .ok i2)
    (h4 : ops.query_vm_device_stats m i2 d = .ok m2)
    (h5 : ops.get_perf_counter_id VC_DISK_WRITE_RATE_CNTR = .ok i3)
    (h6 : ops.query_vm_device_stats m i3 d = .ok m3)
    (h7 : ops.get_perf_counter_id VC_DISK_WRITE_REQUESTS_RATE_CNTR = .ok i4)
    (h8 : ops.query_vm_device_stats m i4 d = .ok m4) :
    inspect_disk_rates ops inst d =
      ⟨(setUpdate (setUpdate (setUpdate (setUpdate [] (dictKeys m1))
          (dictKeys m2)) (dictKeys m3)) (dictKeys m4)).map (fun disk_id =>
          (Disk.mk disk_id,
           DiskRateStats.mk (dictGet m1 disk_id 0 * Ki)
                            (dictGet m2 disk_id 0)
                            (dictGet m3 disk_id 0 * Ki)
                            (dictGet m4 disk_id 0))),
       none,
       [OpCall.getVmMoid inst.id,
        OpCall.getPerfCounterId VC_DISK_READ_RATE_CNTR,
        OpCall.queryDevice m i1 d,
        OpCall.getPerfCounterId VC_DISK_READ_REQUESTS_RATE_CNTR,
        OpCall.queryDevice m i2 d,
        OpCall.getPerfCounterId VC_DISK_WRITE_RATE_CNTR,
        OpCall.queryDevice m i3 d,
        OpCall.getPerfCounterId VC_DISK_WRITE_REQUESTS_RATE_CNTR,
        OpCall.queryDevice m i4 d]⟩ := by
  unfold inspect_disk_rates
  rw [hm]
  simp [hne, h1, h2, h3, h4, h5, h6, h7, h8]

/-- A deterministic collaborator stub used for concrete checks, following
the spec's scenarios: instance "vm-1" resolves to moid "vm-1-moid", any
other instance is absent; each counter name has a fixed id; the CPU
aggregate is 4567, the memory aggregate 2048; the network maps are
rx = `[("nic-0", 100)]` and tx = `[("nic-0", 50), ("nic-1", 20)]`. -/
def stubOps : VsphereOperations where
  get_vm_moid := fun i => if i = "vm-1" then some "vm-1-moid" else none
  get_perf_counter_id := fun n =>
    if n = VC_AVERAGE_CPU_CONSUMED_CNTR then .ok 1
    else if n = VC_AVERAGE_MEMORY_CONSUMED_CNTR then .ok 2
    else if n = VC_NETWORK_RX_COUNTER then .ok 3
    else if n = VC_NETWORK_TX_COUNTER then .ok 4
    else if n = VC_DISK_READ_RATE_CNTR then .ok 5
    else if n = VC_DISK_READ_REQUESTS_RATE_CNTR then .ok 6
    else if n = VC_DISK_WRITE_RATE_CNTR then .ok 7
    else .ok 8
  query_vm_aggregate_stats := fun _ cid _ =>
    if cid = 1 then .ok 4567 else .ok 2048
  query_vm_device_stats := fun _ cid _ =>
    if cid = 3 then .ok [("nic-0", 100)]
    else if cid = 4 then .ok [("nic-0", 50), ("nic-1", 20)]
    else if cid = 5 then .ok [("disk-0", 10)]
    else if cid = 6 then .ok [("disk-1", 3)]
    else if cid = 7 then .ok []
    else .ok [("disk-0", 2)]

/-- C1: for every raw aggregate CPU value returned by the query engine,
`inspect_cpu_util` returns a `CPUUtilStats` record whose `util` field
equals the raw value divided by 100, with fractional precision (the
division is exact rational division). -/
theorem C1_cpu_util_is_raw_div_100
    (ops : VsphereOperations) (inst : Instance) (d : Duration)
    (m : String) (cid : ℕ) (v : ℚ)
    (hm : ops.get_vm_moid inst.id = some m)
    (hc : ops.get_perf_counter_id VC_AVERAGE_CPU_CONSUMED_CNTR = .ok cid)
    (hq : ops.query_vm_aggregate_stats m cid d = .ok v) :
    (inspect_cpu_util ops inst d).1 = .ok (CPUUtilStats.mk (v / 100)) := by
  unfold inspect_cpu_util
  rw [hm]
  simp [hc, hq]

/-- Witness for C1 at the spec's scenario: instance "vm-1" resolves to
moid "vm-1-moid", counter `cpu:usage:average` has id 1, the aggregate
query returns raw 4567, and the result's `util` is 4567 / 100 = 45.67. -/
theorem C1_cpu_util_is_raw_div_100_witness :
    (inspect_cpu_util stubOps (Instance.mk "vm-1") none).1
      = .ok (CPUUtilStats.mk (4567 / 100)) ∧ (4567 / 100 : ℚ) = 45.67 :=
  ⟨C1_cpu_util_is_raw_div_100 stubOps (Instance.mk "vm-1") none "vm-1-moid" 1 4567
      rfl rfl rfl,
   by norm_num⟩

/-- C3: when entity resolution returns the not-found sentinel, each of the
four inspections fails with `InstanceNotFoundException` carrying the
instance id, and the call trace shows that no counter resolution and no
stats query was issued. -/
theorem C3_not_found_no_further_calls
    (ops : VsphereOperations) (inst : Instance) (d : Duration)
    (h : ops.get_vm_moid inst.id = none) :
    inspect_cpu_util ops inst d
      = (.error (.instanceNotFound (not_found_msg inst.id)),
         [OpCall.getVmMoid inst.id]) ∧
    inspect_memory_usage ops inst d
      = (.error (.instanceNotFound (not_found_msg inst.id)),
         [OpCall.getVmMoid inst.id]) ∧
    inspect_vnic_rates ops inst d
      = ⟨[], some (.instanceNotFound (not_found_msg inst.id)),
          [OpCall.getVmMoid inst.id]⟩ ∧
    inspect_disk_rates ops inst d
      = ⟨[], some (.instanceNotFound (not_found_msg inst.id)),
          [OpCall.getVmMoid inst.id]⟩ := by
  refine ⟨?_, ?_, ?_, ?_⟩ <;>
    simp [inspect_cpu_util, inspect_memory_usage, inspect_vnic_rates,
      inspect_disk_rates, h]

/-- Witness for C3: the stub resolves no moid for instance "vm-404", so
all four inspections fail with the not-found error after the single
resolution call. -/
theorem C3_not_found_no_further_calls_witness :
    inspect_cpu_util stubOps (Instance.mk "vm-404") none
      = (.error (.instanceNotFound (not_found_msg "vm-404")),
         [OpCall.getVmMoid "vm-404"]) ∧
    inspect_memory_usage stubOps (Instance.mk "vm-404") none
      = (.error (.instanceNotFound (not_found_msg "vm-404")),
         [OpCall.getVmMoid "vm-404"]) ∧
    inspect_vnic_rates stubOps (Instance.mk "vm-404") none
      = ⟨[], some (.instanceNotFound (not_found_msg "vm-404")),
          [OpCall.getVmMoid "vm-404"]⟩ ∧
    inspect_disk_rates stubOps (Instance.mk "vm-404") none
      = ⟨[], some (.instanceNotFound (not_found_msg "vm-404")),
          [OpCall.getVmMoid "vm-404"]⟩ :=
  C3_not_found_no_further_calls stubOps (Instance.mk "vm-404") none rfl

/-- C4: for every raw aggregate memory value (kilobytes) returned by the
query engine, `inspect_memory_usage` returns a `MemoryUsageStats` record
whose `usage` field equals the raw value divided by 1024 (megabytes). -/
theorem C4_memory_usage_is_raw_div_1024
    (ops : VsphereOperations) (inst : Instance) (d : Duration)
    (m : String) (cid : ℕ) (v : ℚ)
    (hm : ops.get_vm_moid inst.id = some m)
    (hc : ops.get_perf_counter_id VC_AVERAGE_MEMORY_CONSUMED_CNTR = .ok cid)
    (hq : ops.query_vm_aggregate_stats m cid d = .ok v) :
    (inspect_memory_usage ops inst d).1 = .ok (MemoryUsageStats.mk (v / 1024)) := by
  unfold inspect_memory_usage
  rw [hm]
  simp [hc, hq, Ki]

/-- Witness for C4: raw memory value 2048 KB yields usage 2048 / 1024 =
2 MB. -/
theorem C4_memory_usage_is_raw_div_1024_witness :
    (inspect_memory_usage stubOps (Instance.mk "vm-1") none).1
      = .ok (MemoryUsageStats.mk (2048 / 1024)) ∧ (2048 / 1024 : ℚ) = 2 :=
  ⟨C4_memory_usage_is_raw_div_1024 stubOps (Instance.mk "vm-1") none "vm-1-moid" 2 2048
      rfl rfl rfl,
   by norm_num⟩

/-- C6: against a provider whose state a first `inspect_cpu_util` call
leaves unchanged (a deterministic, unchanged query engine), a second
sequential call with identical inputs returns an identical result. -/
theorem C6_cpu_util_sequential_idempotent {σ : Type} (ops : StatefulOps σ)
    (s : σ) (inst : Instance) (d : Duration)
    (h : (inspect_cpu_util_st ops s inst d).2 = s) :
    (inspect_cpu_util_st ops (inspect_cpu_util_st ops s inst d).2 inst d).1
      = (inspect_cpu_util_st ops s inst d).1 := by
  rw [h]

/-- A deterministic stateful stub whose calls never modify the provider
state. -/
def stubStatefulOps : StatefulOps ℕ where
  get_vm_moid := fun s _ => (some "vm-1-moid", s)
  get_perf_counter_id := fun s _ => (.ok 1, s)
  query_vm_aggregate_stats := fun s _ _ _ => (.ok 4567, s)

/-- Witness for C6: with the unchanging stateful stub in state 0, the
first call leaves the state at 0 and the second sequential call returns
the same result. -/
theorem C6_cpu_util_sequential_idempotent_witness :
    (inspect_cpu_util_st stubStatefulOps 0 (Instance.mk "vm-1") none).2 = 0 ∧
    (inspect_cpu_util_st stubStatefulOps
        (inspect_cpu_util_st stubStatefulOps 0 (Instance.mk "vm-1") none).2
        (Instance.mk "vm-1") none).1
      = (inspect_cpu_util_st stubStatefulOps 0 (Instance.mk "vm-1") none).1 :=
  ⟨rfl,
   C6_cpu_util_sequential_idempotent stubStatefulOps 0 (Instance.mk "vm-1") none rfl⟩

/-- Mapping the interface name over the assembled network pairs gives
back the device-id list. -/
theorem vnic_pairs_names (rxm txm : DeviceStatMap) (l : List String) :
    (l.map (fun vnic_id =>
        (Interface.mk vnic_id none none none,
         InterfaceRateStats.mk (dictGet rxm vnic_id 0 * Ki)
                               (dictGet txm vnic_id 0 * Ki)))).map
      (fun p => p.1.name) = l := by
  rw [List.map_map]
  exact List.map_id' l

/-- Mapping the disk device over the assembled disk pairs gives back the
device-id list. -/
theorem disk_pairs_devices (m1 m2 m3 m4 : DeviceStatMap) (l : List String) :
    (l.map (fun disk_id =>
        (Disk.mk disk_id,
         DiskRateStats.mk (dictGet m1 disk_id 0 * Ki)
                          (dictGet m2 disk_id 0)
                          (dictGet m3 disk_id 0 * Ki)
                          (dictGet m4 disk_id 0)))).map
      (fun p => p.1.device) = l := by
  rw [List.map_map]
  exact List.map_id' l

/-- C2: when all queries of a fan-out inspection succeed, the yielded
device-id list is duplicate-free and is exactly the union of the
per-counter key sets (network: rx ∪ tx; disk: the four disk maps), and a
device missing from one counter's map gets value 0 for that counter's
field; no device in any map is dropped. -/
theorem C2_fan_out_device_union
    (ops : VsphereOperations) (inst : Instance) (d : Duration) (m : String)
    (rxId txId : ℕ) (rxm txm : DeviceStatMap)
    (i1 i2 i3 i4 : ℕ) (m1 m2 m3 m4 : DeviceStatMap)
    (hm : ops.get_vm_moid inst.id = some m) (hne : m.isEmpty = false)
    (h1 : ops.get_perf_counter_id VC_NETWORK_RX_COUNTER = .ok rxId)
    (h2 : ops.query_vm_device_stats m rxId d = .ok rxm)
    (h3 : ops.get_perf_counter_id VC_NETWORK_TX_COUNTER = .ok txId)
    (h4 : ops.query_vm_device_stats m txId d = .ok txm)
    (g1 : ops.get_perf_counter_id VC_DISK_READ_RATE_CNTR = .ok i1)
    (g2 : ops.query_vm_device_stats m i1 d = .ok m1)
    (g3 : ops.get_perf_counter_id VC_DISK_READ_REQUESTS_RATE_CNTR = .ok i2)
    (g4 : ops.query_vm_device_stats m i2 d = .ok m2)
    (g5 : ops.get_perf_counter_id VC_DISK_WRITE_RATE_CNTR = .ok i3)
    (g6 : ops.query_vm_device_stats m i3 d = .ok m3)
    (g7 : ops.get_perf_counter_id VC_DISK_WRITE_REQUESTS_RATE_CNTR = .ok i4)
    (g8 : ops.query_vm_device_stats m i4 d = .ok m4) :
    (((inspect_vnic_rates ops inst d).yielded.map (fun p => p.1.name)).Nodup ∧
     (∀ dev, dev ∈ (inspect_vnic_rates ops inst d).yielded.map (fun p => p.1.name)
        ↔ dev ∈ dictKeys rxm ∨ dev ∈ dictKeys txm) ∧
     (∀ p ∈ (inspect_vnic_rates ops inst d).yielded,
        (p.1.name ∉ dictKeys rxm → p.2.rx_bytes_rate = 0) ∧
        (p.1.name ∉ dictKeys txm → p.2.tx_bytes_rate = 0))) ∧
    (((inspect_disk_rates ops inst d).yielded.map (fun p => p.1.device)).Nodup ∧
     (∀ dev, dev ∈ (inspect_disk_rates ops inst d).yielded.map (fun p => p.1.device)
        ↔ dev ∈ dictKeys m1 ∨ dev ∈ dictKeys m2 ∨ dev ∈ dictKeys m3 ∨ dev ∈ dictKeys m4) ∧
     (∀ p ∈ (inspect_disk_rates ops inst d).yielded,
        (p.1.device ∉ dictKeys m1 → p.2.read_bytes_rate = 0) ∧
        (p.1.device ∉ dictKeys m2 → p.2.read_requests_rate = 0) ∧
        (p.1.device ∉ dictKeys m3 → p.2.write_bytes_rate = 0) ∧
        (p.1.device ∉ dictKeys m4 → p.2.write_requests_rate = 0))) := by
  rw [inspect_vnic_rates_ok ops inst d m rxId txId rxm txm hm hne h1 h2 h3 h4,
      inspect_disk_rates_ok ops inst d m i1 i2 i3 i4 m1 m2 m3 m4 hm hne
        g1 g2 g3 g4 g5 g6 g7 g8]
  dsimp only
  rw [vnic_pairs_names, disk_pairs_devices]
  refine ⟨⟨?_, ?_, ?_⟩, ?_, ?_, ?_⟩
  · exact nodup_setUpdate _ _ (nodup_setUpdate _ _ List.nodup_nil)
  · intro dev
    rw [mem_setUpdate, mem_setUpdate]
    simp
  · intro p hp
    simp only [List.mem_map] at hp
    obtain ⟨dev, hdev, rfl⟩ := hp
    dsimp only
    exact ⟨fun hn => by rw [dictGet_not_mem hn, zero_mul],
           fun hn => by rw [dictGet_not_mem hn, zero_mul]⟩
  · exact nodup_setUpdate _ _ (nodup_setUpdate _ _
      (nodup_setUpdate _ _ (nodup_setUpdate _ _ List.nodup_nil)))
  · intro dev
    rw [mem_setUpdate, mem_setUpdate, mem_setUpdate, mem_setUpdate]
    simp [or_assoc]
  · intro p hp
    simp only [List.mem_map] at hp
    obtain ⟨dev, hdev, rfl⟩ := hp
    dsimp only
    exact ⟨fun hn => by rw [dictGet_not_mem hn, zero_mul],
           fun hn => by rw [dictGet_not_mem hn],
           fun hn => by rw [dictGet_not_mem hn, zero_mul],
           fun hn => by rw [dictGet_not_mem hn]⟩

/-- Witness for C2 at the spec's scenario maps (rx reports nic-0, tx
reports nic-0 and nic-1): the two yielded network device ids are
duplicate-free, and nic-1 — absent from the rx map — is still yielded
because it is in the union. -/
theorem C2_fan_out_device_union_witness :
    ((inspect_vnic_rates stubOps (Instance.mk "vm-1") none).yielded.map
        (fun p => p.1.name)).Nodup ∧
    ("nic-1" ∈ (inspect_vnic_rates stubOps (Instance.mk "vm-1") none).yielded.map
        (fun p => p.1.name)
      ↔ "nic-1" ∈ dictKeys [("nic-0", (100 : ℚ))]
        ∨ "nic-1" ∈ dictKeys [("nic-0", (50 : ℚ)), ("nic-1", 20)]) := by
  have h := C2_fan_out_device_union stubOps (Instance.mk "vm-1") none "vm-1-moid"
    3 4 [("nic-0", 100)] [("nic-0", 50), ("nic-1", 20)]
    5 6 7 8 [("disk-0", 10)] [("disk-1", 3)] [] [("disk-0", 2)]
    rfl rfl rfl rfl rfl rfl rfl rfl rfl rfl rfl rfl rfl rfl
  exact ⟨h.1.1, h.1.2.1 "nic-1"⟩

/-- C5: in the fan-out outputs, the byte-rate fields (network rx/tx, disk
read/write bytes) equal the raw per-device value multiplied by 1024
(KB/s to B/s), while the request-rate fields (disk read/write requests)
are the raw values unconverted. -/
theorem C5_byte_rates_times_1024_request_rates_raw
    (ops : VsphereOperations) (inst : Instance) (d : Duration) (m : String)
    (rxId txId : ℕ) (rxm txm : DeviceStatMap)
    (i1 i2 i3 i4 : ℕ) (m1 m2 m3 m4 : DeviceStatMap)
    (hm : ops.get_vm_moid inst.id = some m) (hne : m.isEmpty = false)
    (h1 : ops.get_perf_counter_id VC_NETWORK_RX_COUNTER = .ok rxId)
    (h2 : ops.query_vm_device_stats m rxId d = .ok rxm)
    (h3 : ops.get_perf_counter_id VC_NETWORK_TX_COUNTER = .ok txId)
    (h4 : ops.query_vm_device_stats m txId d = .ok txm)
    (g1 : ops.get_perf_counter_id VC_DISK_READ_RATE_CNTR = .ok i1)
    (g2 : ops.query_vm_device_stats m i1 d = .ok m1)
    (g3 : ops.get_perf_counter_id VC_DISK_READ_REQUESTS_RATE_CNTR = .ok i2)
    (g4 : ops.query_vm_device_stats m i2 d = .ok m2)
    (g5 : ops.get_perf_counter_id VC_DISK_WRITE_RATE_CNTR = .ok i3)
    (g6 : ops.query_vm_device_stats m i3 d = .ok m3)
    (g7 : ops.get_perf_counter_id VC_DISK_WRITE_REQUESTS_RATE_CNTR = .ok i4)
    (g8 : ops.query_vm_device_stats m i4 d = .ok m4) :
    (∀ p ∈ (inspect_vnic_rates ops inst d).yielded,
       p.2.rx_bytes_rate = dictGet rxm p.1.name 0 * 1024 ∧
       p.2.tx_bytes_rate = dictGet txm p.1.name 0 * 1024) ∧
    (∀ p ∈ (inspect_disk_rates ops inst d).yielded,
       p.2.read_bytes_rate = dictGet m1 p.1.device 0 * 1024 ∧
       p.2.read_requests_rate = dictGet m2 p.1.device 0 ∧
       p.2.write_bytes_rate = dictGet m3 p.1.device 0 * 1024 ∧
       p.2.write_requests_rate = dictGet m4 p.1.device 0) := by
  rw [inspect_vnic_rates_ok ops inst d m rxId txId rxm txm hm hne h1 h2 h3 h4,
      inspect_disk_rates_ok ops inst d m i1 i2 i3 i4 m1 m2 m3 m4 hm hne
        g1 g2 g3 g4 g5 g6 g7 g8]
  constructor
  · intro p hp
    simp only [List.mem_map] at hp
    obtain ⟨dev, hdev, rfl⟩ := hp
    exact ⟨by simp [Ki], by simp [Ki]⟩
  · intro p hp
    simp only [List.mem_map] at hp
    obtain ⟨dev, hdev, rfl⟩ := hp
    exact ⟨by simp [Ki], rfl, by simp [Ki], rfl⟩

/-- Witness for C5 at the spec's scenario: nic-0 has raw rx 100 and raw
tx 50, and the yielded pair carries rx = 102400 B/s and tx = 51200 B/s,
each the raw KB/s value times 1024. -/
theorem C5_byte_rates_times_1024_request_rates_raw_witness :
    (Interface.mk "nic-0" none none none,
     InterfaceRateStats.mk 102400 51200)
      ∈ (inspect_vnic_rates stubOps (Instance.mk "vm-1") none).yielded ∧
    (102400 : ℚ) = dictGet [("nic-0", 100)] "nic-0" 0 * 1024 ∧
    (51200 : ℚ) = dictGet [("nic-0", 50), ("nic-1", 20)] "nic-0" 0 * 1024 := by
  have hmem : (Interface.mk "nic-0" none none none,
      InterfaceRateStats.mk 102400 51200)
      ∈ (inspect_vnic_rates stubOps (Instance.mk "vm-1") none).yielded := by
    rw [inspect_vnic_rates_ok stubOps (Instance.mk "vm-1") none "vm-1-moid" 3 4
        [("nic-0", 100)] [("nic-0", 50), ("nic-1", 20)] rfl rfl rfl rfl rfl rfl]
    refine List.mem_map.mpr ⟨"nic-0", ?_, ?_⟩
    · rw [mem_setUpdate, mem_setUpdate]
      simp [dictKeys]
    · simp [dictGet, List.find?, Ki]
      norm_num
  have h := (C5_byte_rates_times_1024_request_rates_raw stubOps (Instance.mk "vm-1")
      none "vm-1-moid" 3 4 [("nic-0", 100)] [("nic-0", 50), ("nic-1", 20)]
      5 6 7 8 [("disk-0", 10)] [("disk-1", 3)] [] [("disk-0", 2)]
      rfl rfl rfl rfl rfl rfl rfl rfl rfl rfl rfl rfl rfl rfl).1 _ hmem
  exact ⟨hmem, h.1, h.2⟩

/-- C7: in a successful fan-out inspection the collaborator calls happen
in a fixed order — network: resolve rx, query rx, resolve tx, query tx;
disk: resolve and query read-bytes, read-requests, write-bytes,
write-requests in that order — with exactly one per-device query per
counter. -/
theorem C7_fixed_counter_and_query_order
    (ops : VsphereOperations) (inst : Instance) (d : Duration) (m : String)
    (rxId txId : ℕ) (rxm txm : DeviceStatMap)
    (i1 i2 i3 i4 : ℕ) (m1 m2 m3 m4 : DeviceStatMap)
    (hm : ops.get_vm_moid inst.id = some m) (hne : m.isEmpty = false)
    (h1 : ops.get_perf_counter_id VC_NETWORK_RX_COUNTER = .ok rxId)
    (h2 : ops.query_vm_device_stats m rxId d = .ok rxm)
    (h3 : ops.get_perf_counter_id VC_NETWORK_TX_COUNTER = .ok txId)
    (h4 : ops.query_vm_device_stats m txId d = .ok txm)
    (g1 : ops.get_perf_counter_id VC_DISK_READ_RATE_CNTR = .ok i1)
    (g2 : ops.query_vm_device_stats m i1 d = .ok m1)
    (g3 : ops.get_perf_counter_id VC_DISK_READ_REQUESTS_RATE_CNTR = .ok i2)
    (g4 : ops.query_vm_device_stats m i2 d = .ok m2)
    (g5 : ops.get_perf_counter_id VC_DISK_WRITE_RATE_CNTR = .ok i3)
    (g6 : ops.query_vm_device_stats m i3 d = .ok m3)
    (g7 : ops.get_perf_counter_id VC_DISK_WRITE_REQUESTS_RATE_CNTR = .ok i4)
    (g8 : ops.query_vm_device_stats m i4 d = .ok m4) :
    (inspect_vnic_rates ops inst d).trace
      = [OpCall.getVmMoid inst.id,
         OpCall.getPerfCounterId VC_NETWORK_RX_COUNTER,
         OpCall.queryDevice m rxId d,
         OpCall.getPerfCounterId VC_NETWORK_TX_COUNTER,
         OpCall.queryDevice m txId d] ∧
    (inspect_disk_rates ops inst d).trace
      = [OpCall.getVmMoid inst.id,
         OpCall.getPerfCounterId VC_DISK_READ_RATE_CNTR,
         OpCall.queryDevice m i1 d,
         OpCall.getPerfCounterId VC_DISK_READ_REQUESTS_RATE_CNTR,
         OpCall.queryDevice m i2 d,
         OpCall.getPerfCounterId VC_DISK_WRITE_RATE_CNTR,
         OpCall.queryDevice m i3 d,
         OpCall.getPerfCounterId VC_DISK_WRITE_REQUESTS_RATE_CNTR,
         OpCall.queryDevice m i4 d] := by
  rw [inspect_vnic_rates_ok ops inst d m rxId txId rxm txm hm hne h1 h2 h3 h4,
      inspect_disk_rates_ok ops inst d m i1 i2 i3 i4 m1 m2 m3 m4 hm hne
        g1 g2 g3 g4 g5 g6 g7 g8]
  exact ⟨rfl, rfl⟩

/-- Witness for C7: the concrete stub's network inspection issues exactly
the five calls in source order. -/
theorem C7_fixed_counter_and_query_order_witness :
    (inspect_vnic_rates stubOps (Instance.mk "vm-1") none).trace
      = [OpCall.getVmMoid "vm-1",
         OpCall.getPerfCounterId VC_NETWORK_RX_COUNTER,
         OpCall.queryDevice "vm-1-moid" 3 none,
         OpCall.getPerfCounterId VC_NETWORK_TX_COUNTER,
         OpCall.queryDevice "vm-1-moid" 4 none] :=
  (C7_fixed_counter_and_query_order stubOps (Instance.mk "vm-1") none "vm-1-moid"
    3 4 [("nic-0", 100)] [("nic-0", 50), ("nic-1", 20)]
    5 6 7 8 [("disk-0", 10)] [("disk-1", 3)] [] [("disk-0", 2)]
    rfl rfl rfl rfl rfl rfl rfl rfl rfl rfl rfl rfl rfl rfl).1

/-- C8: every pair yielded by `inspect_vnic_rates` carries an `Interface`
descriptor whose `name` is the device id from the per-device maps (its
stats are the lookups of that very id) and whose `mac`, `fref` and
`parameters` fields are the null value. -/
theorem C8_interface_descriptor_fields
    (ops : VsphereOperations) (inst : Instance) (d : Duration) (m : String)
    (rxId txId : ℕ) (rxm txm : DeviceStatMap)
    (hm : ops.get_vm_moid inst.id = some m) (hne : m.isEmpty = false)
    (h1 : ops.get_perf_counter_id VC_NETWORK_RX_COUNTER = .ok rxId)
    (h2 : ops.query_vm_device_stats m rxId d = .ok rxm)
    (h3 : ops.get_perf_counter_id VC_NETWORK_TX_COUNTER = .ok txId)
    (h4 : ops.query_vm_device_stats m txId d = .ok txm) :
    ∀ p ∈ (inspect_vnic_rates ops inst d).yielded,
      (p.1.name ∈ dictKeys rxm ∨ p.1.name ∈ dictKeys txm) ∧
      p.1.mac = none ∧ p.1.fref = none ∧ p.1.parameters = none ∧
      p.2 = InterfaceRateStats.mk (dictGet rxm p.1.name 0 * Ki)
                                  (dictGet txm p.1.name 0 * Ki) := by
  rw [inspect_vnic_rates_ok ops inst d m rxId txId rxm txm hm hne h1 h2 h3 h4]
  intro p hp
  simp only [List.mem_map] at hp
  obtain ⟨dev, hdev, rfl⟩ := hp
  refine ⟨?_, rfl, rfl, rfl, rfl⟩
  have := (mem_setUpdate (dictKeys txm) (setUpdate [] (dictKeys rxm))).mp hdev
  rcases this with h | h
  · exact Or.inl (by simpa using (mem_setUpdate (dictKeys rxm) []).mp h)
  · exact Or.inr h

/-- Witness for C8: the yielded pair for nic-1 carries name "nic-1" (a
device id of the tx map), null mac, fref and parameters, and the stats
looked up at "nic-1". -/
theorem C8_interface_descriptor_fields_witness :
    (Interface.mk "nic-1" none none none,
     InterfaceRateStats.mk 0 20480)
      ∈ (inspect_vnic_rates stubOps (Instance.mk "vm-1") none).yielded ∧
    ("nic-1" ∈ dictKeys [("nic-0", (100 : ℚ))]
      ∨ "nic-1" ∈ dictKeys [("nic-0", (50 : ℚ)), ("nic-1", 20)]) ∧
    (none : Option String) = none ∧
    InterfaceRateStats.mk 0 20480
      = InterfaceRateStats.mk (dictGet [("nic-0", 100)] "nic-1" 0 * Ki)
                              (dictGet [("nic-0", 50), ("nic-1", 20)] "nic-1" 0 * Ki) := by
  have hmem : (Interface.mk "nic-1" none none none,
      InterfaceRateStats.mk 0 20480)
      ∈ (inspect_vnic_rates stubOps (Instance.mk "vm-1") none).yielded := by
    rw [inspect_vnic_rates_ok stubOps (Instance.mk "vm-1") none "vm-1-moid" 3 4
        [("nic-0", 100)] [("nic-0", 50), ("nic-1", 20)] rfl rfl rfl rfl rfl rfl]
    refine List.mem_map.mpr ⟨"nic-1", ?_, ?_⟩
    · rw [mem_setUpdate, mem_setUpdate]
      simp [dictKeys]
    · simp [dictGet, List.find?, Ki]
      norm_num
  have h := C8_interface_descriptor_fields stubOps (Instance.mk "vm-1") none
    "vm-1-moid" 3 4 [("nic-0", 100)] [("nic-0", 50), ("nic-1", 20)]
    rfl rfl rfl rfl rfl rfl _ hmem
  exact ⟨hmem, h.1, h.2.1, h.2.2.2.2⟩

/-- C9: the generator body of both fan-out inspections performs every
counter resolution and per-device query before the first yield, so a
terminating error implies that zero pairs were yielded — a failure can
never occur after some devices have already been produced. -/
theorem C9_error_implies_no_pairs_yielded
    (ops : VsphereOperations) (inst : Instance) (d : Duration) :
    ((inspect_vnic_rates ops inst d).err.isSome
        → (inspect_vnic_rates ops inst d).yielded = []) ∧
    ((inspect_disk_rates ops inst d).err.isSome
        → (inspect_disk_rates ops inst d).yielded = []) := by
  refine ⟨?_, ?_⟩
  · unfold inspect_vnic_rates
    repeat' split
    all_goals simp
  · unfold inspect_disk_rates
    repeat' split
    all_goals simp

/-- A collaborator stub whose stats queries always fail (e.g. a transport
fault), while entity and counter resolution succeed. -/
def stubOpsFail : VsphereOperations where
  get_vm_moid := fun _ => some "vm-1-moid"
  get_perf_counter_id := fun _ => .ok 1
  query_vm_aggregate_stats := fun _ _ _ => .error "transport fault"
  query_vm_device_stats := fun _ _ _ => .error "transport fault"

/-- Witness for C9: with the always-failing query stub both fan-outs
terminate with an error and yield zero pairs. -/
theorem C9_error_implies_no_pairs_yielded_witness :
    (inspect_vnic_rates stubOpsFail (Instance.mk "vm-1") none).err.isSome = true ∧
    (inspect_vnic_rates stubOpsFail (Instance.mk "vm-1") none).yielded = [] ∧
    (inspect_disk_rates stubOpsFail (Instance.mk "vm-1") none).yielded = [] := by
  have h := C9_error_implies_no_pairs_yielded stubOpsFail (Instance.mk "vm-1") none
  exact ⟨rfl, h.1 rfl, h.2 rfl⟩

/-- C10: the two styles of not-found check diverge on an empty-string
moid.  When entity resolution returns any actual string (here the empty
string), the aggregate inspections proceed to counter resolution — their
trace continues past the moid lookup — whereas the fan-out inspections,
which test for python falsiness, raise `InstanceNotFoundException` on
the empty string and issue no further call. -/
theorem C10_none_check_vs_falsy_check
    (ops : VsphereOperations) (inst : Instance) (d : Duration) (m : String)
    (hm : ops.get_vm_moid inst.id = some m) :
    (∃ t, (inspect_cpu_util ops inst d).2
        = [OpCall.getVmMoid inst.id,
           OpCall.getPerfCounterId VC_AVERAGE_CPU_CONSUMED_CNTR] ++ t) ∧
    (∃ t, (inspect_memory_usage ops inst d).2
        = [OpCall.getVmMoid inst.id,
           OpCall.getPerfCounterId VC_AVERAGE_MEMORY_CONSUMED_CNTR] ++ t) ∧
    (m.isEmpty = true →
      inspect_vnic_rates ops inst d
        = ⟨[], some (.instanceNotFound (not_found_msg inst.id)),
            [OpCall.getVmMoid inst.id]⟩ ∧
      inspect_disk_rates ops inst d
        = ⟨[], some (.instanceNotFound (not_found_msg inst.id)),
            [OpCall.getVmMoid inst.id]⟩) := by
  refine ⟨?_, ?_, ?_⟩
  · rcases hc : ops.get_perf_counter_id VC_AVERAGE_CPU_CONSUMED_CNTR with e | cid
    · exact ⟨[], by simp [inspect_cpu_util, hm, hc]⟩
    · rcases hq : ops.query_vm_aggregate_stats m cid d with e | v
      · exact ⟨[OpCall.queryAggregate m cid d], by simp [inspect_cpu_util, hm, hc, hq]⟩
      · exact ⟨[OpCall.queryAggregate m cid d], by simp [inspect_cpu_util, hm, hc, hq]⟩
  · rcases hc : ops.get_perf_counter_id VC_AVERAGE_MEMORY_CONSUMED_CNTR with e | cid
    · exact ⟨[], by simp [inspect_memory_usage, hm, hc]⟩
    · rcases hq : ops.query_vm_aggregate_stats m cid d with e | v
      · exact ⟨[OpCall.queryAggregate m cid d],
          by simp [inspect_memory_usage, hm, hc, hq]⟩
      · exact ⟨[OpCall.queryAggregate m cid d],
          by simp [inspect_memory_usage, hm, hc, hq]⟩
  · intro hE
    exact ⟨by simp [inspect_vnic_rates, hm, hE],
           by simp [inspect_disk_rates, hm, hE]⟩

/-- A collaborator stub whose entity resolution returns an empty-string
moid for every instance. -/
def stubOpsEmptyMoid : VsphereOperations where
  get_vm_moid := fun _ => some ""
  get_perf_counter_id := fun _ => .ok 1
  query_vm_aggregate_stats := fun _ _ _ => .ok 4567
  query_vm_device_stats := fun _ _ _ => .ok []

/-- Witness for C10: with an empty-string moid, the aggregate inspections
resolve their counter (the trace continues) while both fan-outs raise
the not-found error after the single resolution call. -/
theorem C10_none_check_vs_falsy_check_witness :
    (∃ t, (inspect_cpu_util stubOpsEmptyMoid (Instance.mk "vm-9") none).2
        = [OpCall.getVmMoid "vm-9",
           OpCall.getPerfCounterId VC_AVERAGE_CPU_CONSUMED_CNTR] ++ t) ∧
    inspect_vnic_rates stubOpsEmptyMoid (Instance.mk "vm-9") none
      = ⟨[], some (.instanceNotFound (not_found_msg "vm-9")),
          [OpCall.getVmMoid "vm-9"]⟩ := by
  have h := C10_none_check_vs_falsy_check stubOpsEmptyMoid (Instance.mk "vm-9")
    none "" rfl
  exact ⟨h.1, (h.2.2 rfl).1⟩

end VmwareVirt
